import Mathlib

/-!
Verification of the ReflowOven controller (src/ReflowOven/ReflowOven.ino,
src/ReflowOven/config.h) against its natural-language specification.

The embedding is shallow: C floats are modelled as rationals (ℚ), machine
integers as ℕ/ℤ (all claim-relevant arithmetic stays far from overflow and
the millis() counter is assumed monotonic over a run, so no modular wrap is
modelled), and the file-scope mutable globals are gathered into one state
record threaded through the functions exactly as the source mutates them.
Display, EEPROM, serial and network I/O are omitted: they only read the
state modelled here.
-/

namespace ReflowOven

/-- Mirror of `enum SystemState` (ReflowOven.ino lines 29-39). -/
inductive SystemState where
  | STATE_IDLE
  | STATE_PREHEATING
  | STATE_SOAKING
  | STATE_REFLOW
  | STATE_COOLING
  | STATE_HEATING
  | STATE_MAINTAINING
  | STATE_COMPLETE
  | STATE_ERROR
  deriving DecidableEq, Repr

/-- Mirror of `enum OperatingMode` (lines 41-45). -/
inductive OperatingMode where
  | MODE_IDLE
  | MODE_REFLOW
  | MODE_FILAMENT
  deriving DecidableEq, Repr

/-- Mirror of `enum ErrorCode` (lines 69-78). -/
inductive ErrorCode where
  | ERROR_NONE
  | ERROR_OVER_TEMP
  | ERROR_SENSOR_FAIL
  | ERROR_THERMAL_RUNAWAY
  | ERROR_WIFI_LOST
  | ERROR_MQTT_LOST
  | ERROR_INVALID_CMD
  | ERROR_TIMEOUT
  deriving DecidableEq, Repr

open SystemState OperatingMode ErrorCode

-- Constants from config.h.

def REFLOW_MAX_TEMP : ℚ := 260
def FILAMENT_MAX_TEMP : ℚ := 100
def TEMP_SAMPLE_COUNT : ℕ := 10
def TEMP_OUTLIER_THRESHOLD : ℚ := 10
def SENSOR_OPEN_THRESHOLD : ℤ := 1000
def SENSOR_SHORT_THRESHOLD : ℤ := 10
def REFLOW_KP : ℚ := 2
def REFLOW_KI : ℚ := 1 / 2
def REFLOW_KD : ℚ := 1
def FILAMENT_KP : ℚ := 3 / 2
def FILAMENT_KI : ℚ := 3 / 10
def FILAMENT_KD : ℚ := 4 / 5
def PWM_MIN_ON_TIME : ℕ := 100
def REFLOW_TIMEOUT : ℕ := 600
def THERMAL_RUNAWAY_TEMP_RISE : ℚ := 5
def THERMAL_RUNAWAY_TIME : ℕ := 30000
def REFLOW_SOAK_TEMP_MIN : ℤ := 130
def REFLOW_SOAK_TEMP_MAX : ℤ := 160
def REFLOW_COOLING_TEMP : ℚ := 80
def FILAMENT_TEMP_MIN : ℚ := 40

/-- The file-scope mutable globals of ReflowOven.ino that the core reads and
writes (lines 93-252), gathered into one record.  Times are in milliseconds
of the monotonic `millis()` clock.  `reflowPeakTemp`, `reflowSoakTemp`,
`filamentTemp` are C `int` configuration values; `reflowSoakDuration` is in
seconds and `filamentDuration` in minutes, both positive by their configured
ranges, so ℕ. -/
structure OvenState where
  systemState : SystemState
  operatingMode : OperatingMode
  lastError : ErrorCode
  currentTemp : ℚ
  targetTemp : ℚ
  pidKp : ℚ
  pidKi : ℚ
  pidKd : ℚ
  pidIntegral : ℚ
  pidLastError : ℚ
  pidOutput : ℚ
  ssrState : Bool
  ssrDutyCycle : ℕ
  ssrCycleStart : ℕ
  heaterOffTemp : ℚ
  heaterOffTime : ℕ
  heaterWasOn : Bool
  operationStartTime : ℕ
  phaseStartTime : ℕ
  reflowPeakTemp : ℤ
  reflowSoakTemp : ℤ
  reflowSoakDuration : ℕ
  filamentTemp : ℤ
  filamentDuration : ℕ
  deriving DecidableEq, Repr

/-- Arduino `constrain(amt, low, high)`:
`(amt < low) ? low : ((amt > high) ? high : amt)`. -/
def constrain (x lo hi : ℚ) : ℚ :=
  if x < lo then lo else if x > hi then hi else x

/-- `filterTemperature` (lines 502-532) acting on the ring buffer
`tempHistory` (length `TEMP_SAMPLE_COUNT`) and index `tempHistoryIndex`.
Returns the reading together with the updated buffer and index.  The C code
computes the mean of the strictly positive slots, rejects the sample when it
is more than `TEMP_OUTLIER_THRESHOLD` away from that mean (returning the
mean with the buffer untouched), and otherwise stores the sample and returns
the sum of all `TEMP_SAMPLE_COUNT` slots divided by `TEMP_SAMPLE_COUNT`. -/
def filterTemperature (tempHistory : List ℚ) (tempHistoryIndex : ℕ) (rawTemp : ℚ) :
    ℚ × List ℚ × ℕ :=
  let validSamples := tempHistory.filter (fun t => 0 < t)
  let validCount := validSamples.length
  if 0 < validCount ∧ |rawTemp - validSamples.sum / (validCount : ℚ)| > TEMP_OUTLIER_THRESHOLD then
    (validSamples.sum / (validCount : ℚ), tempHistory, tempHistoryIndex)
  else
    let updated := tempHistory.set tempHistoryIndex rawTemp
    (updated.sum / (TEMP_SAMPLE_COUNT : ℚ), updated, (tempHistoryIndex + 1) % TEMP_SAMPLE_COUNT)

/-- `checkSensorFailure` (lines 534-548): open thermocouple above
`SENSOR_OPEN_THRESHOLD`, shorted thermocouple below `SENSOR_SHORT_THRESHOLD`
but only once the heater has been on (`heaterWasOn`).  Returns whether an
`ERROR_SENSOR_FAIL` emergency shutdown fires. -/
def checkSensorFailure (adcValue : ℤ) (heaterWasOn : Bool) : Bool :=
  if SENSOR_OPEN_THRESHOLD < adcValue then true
  else if decide (adcValue < SENSOR_SHORT_THRESHOLD) && heaterWasOn then true
  else false

/-- `updatePID` (lines 554-584).  Mutates `pidIntegral`, `pidLastError`,
`pidOutput` and `ssrDutyCycle`.  The C cast `(int)(pidOutput * 2.55)`
truncates toward zero; `pidOutput` is clamped to `[0,100]` so this is the
floor. -/
def updatePID (s : OvenState) : OvenState :=
  let error := s.targetTemp - s.currentTemp
  let pTerm := s.pidKp * error
  let newIntegral := constrain (s.pidIntegral + error) (-100) 100
  let iTerm := s.pidKi * newIntegral
  let dTerm := s.pidKd * (error - s.pidLastError)
  let out := constrain (pTerm + iTerm + dTerm) 0 100
  let duty : ℕ :=
    if s.currentTemp < s.targetTemp - 10 then 255
    else if s.currentTemp > s.targetTemp then 0
    else (⌊out * (51 / 20 : ℚ)⌋).toNat
  { s with pidIntegral := newIntegral, pidLastError := error, pidOutput := out,
           ssrDutyCycle := duty }

/-- `setPIDParams` (lines 586-601): select the per-mode gains and reset the
controller state. -/
def setPIDParams (s : OvenState) (mode : OperatingMode) : OvenState :=
  let s1 :=
    if mode = MODE_REFLOW then
      { s with pidKp := REFLOW_KP, pidKi := REFLOW_KI, pidKd := REFLOW_KD }
    else
      { s with pidKp := FILAMENT_KP, pidKi := FILAMENT_KI, pidKd := FILAMENT_KD }
  { s1 with pidIntegral := 0, pidLastError := 0, pidOutput := 0 }

/-- The window on-time computation inside `controlSSR` (lines 614-620):
`onTime = duty * 1000 / 255` in exact unsigned arithmetic, then clamp a
nonzero on-time up to `PWM_MIN_ON_TIME`. -/
def ssrOnTime (ssrDutyCycle : ℕ) : ℕ :=
  let onTime := ssrDutyCycle * 1000 / 255
  if 0 < onTime ∧ onTime < PWM_MIN_ON_TIME then PWM_MIN_ON_TIME else onTime

/-- `controlSSR` (lines 603-637): software PWM over a 1000 ms window plus the
heater-off edge capture (`heaterOffTemp`, `heaterOffTime`) consumed by the
thermal-runaway check. -/
def controlSSR (s : OvenState) (now : ℕ) : OvenState :=
  let rawPosition := now - s.ssrCycleStart
  let cycleStart := if 1000 ≤ rawPosition then now else s.ssrCycleStart
  let cyclePosition := if 1000 ≤ rawPosition then 0 else rawPosition
  let onTime := ssrOnTime s.ssrDutyCycle
  let newState := decide (cyclePosition < onTime) && decide (0 < s.ssrDutyCycle)
  if newState = s.ssrState then
    { s with ssrCycleStart := cycleStart }
  else if newState then
    { s with ssrCycleStart := cycleStart, ssrState := true, heaterWasOn := true }
  else if s.heaterWasOn then
    { s with ssrCycleStart := cycleStart, ssrState := false,
             heaterOffTemp := s.currentTemp, heaterOffTime := now }
  else
    { s with ssrCycleStart := cycleStart, ssrState := false }

/-- The per-mode ceiling of `checkOverTemperature` (line 654) and of the
`set_temp` command (line 1588). -/
def modeMaxTemp (mode : OperatingMode) : ℚ :=
  if mode = MODE_REFLOW then REFLOW_MAX_TEMP else FILAMENT_MAX_TEMP

/-- `checkOverTemperature` (lines 653-661), trip decision only. -/
def checkOverTemperature (s : OvenState) : Bool :=
  decide (s.currentTemp > modeMaxTemp s.operatingMode)

/-- `checkThermalRunaway` (lines 663-678), trip decision only. -/
def checkThermalRunaway (s : OvenState) (now : ℕ) : Bool :=
  if !s.heaterWasOn || s.ssrState then false
  else if THERMAL_RUNAWAY_TIME < now - s.heaterOffTime then
    decide (s.currentTemp - s.heaterOffTemp > THERMAL_RUNAWAY_TEMP_RISE)
  else false

/-- The per-mode duration ceiling of `checkTimeout` (lines 681-682), in
seconds. -/
def modeMaxDuration (s : OvenState) : ℕ :=
  if s.operatingMode = MODE_REFLOW then REFLOW_TIMEOUT else s.filamentDuration * 60

/-- `checkTimeout` (lines 680-690), trip decision only. -/
def checkTimeout (s : OvenState) (now : ℕ) : Bool :=
  decide (modeMaxDuration s < (now - s.operationStartTime) / 1000)

/-- `emergencyShutdown` (lines 692-714): heater off, duty forced to 0, error
latched, state machine forced to `STATE_ERROR`. -/
def emergencyShutdown (s : OvenState) (error : ErrorCode) : OvenState :=
  { s with ssrState := false, ssrDutyCycle := 0,
           lastError := error, systemState := STATE_ERROR }

/-- `checkSafetyConditions` (lines 643-651): skipped in `STATE_IDLE` and
`STATE_ERROR`; otherwise over-temperature, thermal runaway and timeout are
tried in that order and the first hit shuts down. -/
def checkSafetyConditions (s : OvenState) (now : ℕ) : OvenState :=
  if s.systemState = STATE_IDLE ∨ s.systemState = STATE_ERROR then s
  else if checkOverTemperature s then emergencyShutdown s ERROR_OVER_TEMP
  else if checkThermalRunaway s now then emergencyShutdown s ERROR_THERMAL_RUNAWAY
  else if checkTimeout s now then emergencyShutdown s ERROR_TIMEOUT
  else s

/-- `transitionToState` (lines 817-854).  Note that the switch updating
`targetTemp` — and zeroing `ssrDutyCycle` on `STATE_COOLING` and
`STATE_COMPLETE` — sits entirely inside `if (operatingMode == MODE_REFLOW)`. -/
def transitionToState (s : OvenState) (newState : SystemState) (now : ℕ) : OvenState :=
  let s1 := { s with systemState := newState, phaseStartTime := now }
  if s.operatingMode = MODE_REFLOW then
    match newState with
    | STATE_PREHEATING => { s1 with targetTemp := (s.reflowSoakTemp : ℚ) }
    | STATE_SOAKING =>
        { s1 with targetTemp := (((REFLOW_SOAK_TEMP_MIN + REFLOW_SOAK_TEMP_MAX) / 2 : ℤ) : ℚ) }
    | STATE_REFLOW => { s1 with targetTemp := (s.reflowPeakTemp : ℚ) }
    | STATE_COOLING => { s1 with targetTemp := 0, ssrDutyCycle := 0 }
    | STATE_COMPLETE => { s1 with targetTemp := 0, ssrDutyCycle := 0 }
    | _ => s1
  else s1

/-- `updateStateMachine` (lines 720-772). -/
def updateStateMachine (s : OvenState) (now : ℕ) : OvenState :=
  let phaseElapsed := (now - s.phaseStartTime) / 1000
  match s.systemState with
  | STATE_IDLE => s
  | STATE_ERROR => s
  | STATE_COMPLETE => s
  | STATE_PREHEATING =>
      if (s.reflowSoakTemp : ℚ) ≤ s.currentTemp then transitionToState s STATE_SOAKING now else s
  | STATE_SOAKING =>
      if s.reflowSoakDuration ≤ phaseElapsed then transitionToState s STATE_REFLOW now else s
  | STATE_REFLOW =>
      if (s.reflowPeakTemp : ℚ) ≤ s.currentTemp then transitionToState s STATE_COOLING now else s
  | STATE_COOLING =>
      if s.currentTemp ≤ REFLOW_COOLING_TEMP then transitionToState s STATE_COMPLETE now else s
  | STATE_HEATING =>
      if s.operatingMode = MODE_FILAMENT then
        if ((s.filamentTemp - 2 : ℤ) : ℚ) ≤ s.currentTemp then
          transitionToState s STATE_MAINTAINING now
        else s
      else s
  | STATE_MAINTAINING =>
      if s.operatingMode = MODE_FILAMENT then
        if s.filamentDuration * 60 ≤ (now - s.operationStartTime) / 1000 then
          transitionToState s STATE_COMPLETE now
        else s
      else s

/-- `startOperation` (lines 774-799).  Rejected unless idle; resets the run
timestamps and the heater-history flag, selects the PID gains, then enters
the mode's initial phase.  (`operationDuration` is display-only and
omitted.) -/
def startOperation (s : OvenState) (now : ℕ) : OvenState :=
  if s.systemState ≠ STATE_IDLE then s
  else
    let s1 := { s with operationStartTime := now, phaseStartTime := now, heaterWasOn := false }
    let s2 := setPIDParams s1 s1.operatingMode
    if s2.operatingMode = MODE_REFLOW then
      transitionToState { s2 with targetTemp := (s2.reflowSoakTemp : ℚ) } STATE_PREHEATING now
    else if s2.operatingMode = MODE_FILAMENT then
      transitionToState { s2 with targetTemp := (s2.filamentTemp : ℚ) } STATE_HEATING now
    else s2

/-- The `set_temp` branch of `mqttCallback` (lines 1585-1596): bounds check
against the mode's min/max, update `targetTemp` (and `filamentTemp` in
filament mode, via the truncating `(int)` cast, which on the accepted range
`newTemp ≥ 40` equals the floor); out-of-range payloads change nothing.
There is no check of `systemState`. -/
def mqttCommandSetTemp (s : OvenState) (newTemp : ℚ) : OvenState :=
  let maxTemp := if s.operatingMode = MODE_REFLOW then REFLOW_MAX_TEMP else FILAMENT_MAX_TEMP
  let minTemp : ℚ := if s.operatingMode = MODE_FILAMENT then FILAMENT_TEMP_MIN else 0
  if minTemp ≤ newTemp ∧ newTemp ≤ maxTemp then
    let s1 := { s with targetTemp := newTemp }
    if s.operatingMode = MODE_FILAMENT then { s1 with filamentTemp := ⌊newTemp⌋ } else s1
  else s

/-- One iteration of `loop()` (lines 408-480) restricted to the core
pipeline, with the filtered in-range reading `temp` as exogenous input:
`readTemperature` stores the reading, `checkSafetyConditions` runs,
`updatePID` runs unless the state machine is idle/error/complete (line 425),
then `controlSSR` and `updateStateMachine`.  The sub-rate gates (10 Hz read,
1 Hz PID) only decide whether the read and PID steps fire; executing both
every tick covers every interleaving the claims quantify over. -/
def tick (s : OvenState) (temp : ℚ) (now : ℕ) : OvenState :=
  let s1 := { s with currentTemp := temp }
  let s2 := checkSafetyConditions s1 now
  let s3 :=
    if s2.systemState ≠ STATE_IDLE ∧ s2.systemState ≠ STATE_ERROR ∧
       s2.systemState ≠ STATE_COMPLETE then updatePID s2
    else s2
  let s4 := controlSSR s3 now
  updateStateMachine s4 now

/-- Fold `tick` over a list of (filtered reading, millis) inputs. -/
def runTicks (s : OvenState) (inputs : List (ℚ × ℕ)) : OvenState :=
  inputs.foldl (fun st p => tick st p.1 p.2) s

/-- The six phases of an in-progress operation: every `SystemState` except
`STATE_IDLE`, `STATE_COMPLETE` and `STATE_ERROR`. -/
def IsRunning (st : SystemState) : Prop :=
  st = STATE_PREHEATING ∨ st = STATE_SOAKING ∨ st = STATE_REFLOW ∨
  st = STATE_COOLING ∨ st = STATE_HEATING ∨ st = STATE_MAINTAINING

instance (st : SystemState) : Decidable (IsRunning st) := by
  unfold IsRunning; infer_instance

/-- A concrete post-reset state with the default configuration of config.h:
idle, reflow mode selected, all run state cleared. -/
def baseState : OvenState :=
  { systemState := STATE_IDLE
    operatingMode := MODE_REFLOW
    lastError := ERROR_NONE
    currentTemp := 25
    targetTemp := 0
    pidKp := REFLOW_KP
    pidKi := REFLOW_KI
    pidKd := REFLOW_KD
    pidIntegral := 0
    pidLastError := 0
    pidOutput := 0
    ssrState := false
    ssrDutyCycle := 0
    ssrCycleStart := 0
    heaterOffTemp := 0
    heaterOffTime := 0
    heaterWasOn := false
    operationStartTime := 0
    phaseStartTime := 0
    reflowPeakTemp := 210
    reflowSoakTemp := 130
    reflowSoakDuration := 90
    filamentTemp := 45
    filamentDuration := 240 }

-- Helper lemmas shared by the claim theorems.

theorem controlSSR_preserves (s : OvenState) (now : ℕ) :
    (controlSSR s now).systemState = s.systemState ∧
    (controlSSR s now).ssrDutyCycle = s.ssrDutyCycle ∧
    (controlSSR s now).lastError = s.lastError ∧
    (controlSSR s now).operatingMode = s.operatingMode ∧
    (controlSSR s now).currentTemp = s.currentTemp := by
  simp only [controlSSR]
  split_ifs <;> simp

theorem controlSSR_off_when_duty_zero (s : OvenState) (now : ℕ) (h : s.ssrDutyCycle = 0) :
    (controlSSR s now).ssrState = false := by
  cases hs : s.ssrState <;> simp [controlSSR, h, hs]
  split_ifs <;> rfl

theorem updateStateMachine_fixed (s : OvenState) (now : ℕ)
    (h : s.systemState = STATE_ERROR ∨ s.systemState = STATE_IDLE ∨
         s.systemState = STATE_COMPLETE) :
    updateStateMachine s now = s := by
  unfold updateStateMachine
  rcases h with h | h | h <;> rw [h]

theorem checkSafetyConditions_skip (s : OvenState) (now : ℕ)
    (h : s.systemState = STATE_IDLE ∨ s.systemState = STATE_ERROR) :
    checkSafetyConditions s now = s := by
  unfold checkSafetyConditions
  rw [if_pos h]

theorem checkSafetyConditions_overtemp (s : OvenState) (now : ℕ)
    (hi : s.systemState ≠ STATE_IDLE) (he : s.systemState ≠ STATE_ERROR)
    (hover : checkOverTemperature s = true) :
    checkSafetyConditions s now = emergencyShutdown s ERROR_OVER_TEMP := by
  unfold checkSafetyConditions
  rw [if_neg (by simp [hi, he]), if_pos hover]

theorem checkSafetyConditions_trip (s : OvenState) (now : ℕ)
    (hi : s.systemState ≠ STATE_IDLE) (he : s.systemState ≠ STATE_ERROR)
    (htrip : checkOverTemperature s = true ∨ checkThermalRunaway s now = true ∨
             checkTimeout s now = true) :
    ∃ e, checkSafetyConditions s now = emergencyShutdown s e := by
  unfold checkSafetyConditions
  rw [if_neg (by simp [hi, he])]
  by_cases h1 : checkOverTemperature s = true
  · exact ⟨_, by rw [if_pos h1]⟩
  · rw [if_neg h1]
    by_cases h2 : checkThermalRunaway s now = true
    · exact ⟨_, by rw [if_pos h2]⟩
    · rw [if_neg h2]
      by_cases h3 : checkTimeout s now = true
      · exact ⟨_, by rw [if_pos h3]⟩
      · tauto

theorem post_shutdown_fields (s : OvenState) (e : ErrorCode) (now : ℕ) :
    (updateStateMachine (controlSSR (emergencyShutdown s e) now) now).systemState
      = STATE_ERROR ∧
    (updateStateMachine (controlSSR (emergencyShutdown s e) now) now).lastError = e ∧
    (updateStateMachine (controlSSR (emergencyShutdown s e) now) now).ssrDutyCycle = 0 ∧
    (updateStateMachine (controlSSR (emergencyShutdown s e) now) now).ssrState = false := by
  have hc := controlSSR_preserves (emergencyShutdown s e) now
  have hstate : (controlSSR (emergencyShutdown s e) now).systemState = STATE_ERROR := by
    rw [hc.1]; rfl
  rw [updateStateMachine_fixed _ now (Or.inl hstate)]
  refine ⟨hstate, ?_, ?_, ?_⟩
  · rw [hc.2.2.1]; rfl
  · rw [hc.2.1]; rfl
  · exact controlSSR_off_when_duty_zero _ now rfl

theorem tick_overtemp (s : OvenState) (temp : ℚ) (now : ℕ)
    (hi : s.systemState ≠ STATE_IDLE) (he : s.systemState ≠ STATE_ERROR)
    (hover : checkOverTemperature { s with currentTemp := temp } = true) :
    tick s temp now =
      updateStateMachine
        (controlSSR (emergencyShutdown { s with currentTemp := temp } ERROR_OVER_TEMP) now)
        now := by
  simp only [tick]
  rw [checkSafetyConditions_overtemp { s with currentTemp := temp } now hi he hover]
  rw [if_neg (by simp [emergencyShutdown])]

theorem tick_preserves_shutdown (s : OvenState) (temp : ℚ) (now : ℕ)
    (h : s.systemState = STATE_ERROR) (hd : s.ssrDutyCycle = 0) :
    (tick s temp now).systemState = STATE_ERROR ∧
    (tick s temp now).ssrDutyCycle = 0 ∧
    (tick s temp now).ssrState = false ∧
    (tick s temp now).lastError = s.lastError := by
  simp only [tick]
  have h1 : ({ s with currentTemp := temp } : OvenState).systemState = STATE_ERROR := h
  rw [checkSafetyConditions_skip _ now (Or.inr h1)]
  rw [if_neg (by simp [h])]
  have hc := controlSSR_preserves { s with currentTemp := temp } now
  have hs4 : (controlSSR { s with currentTemp := temp } now).systemState = STATE_ERROR := by
    rw [hc.1]; exact h1
  rw [updateStateMachine_fixed _ now (Or.inl hs4)]
  exact ⟨hs4, by rw [hc.2.1]; exact hd, controlSSR_off_when_duty_zero _ now hd,
         by rw [hc.2.2.1]⟩

theorem runTicks_preserves_shutdown (inputs : List (ℚ × ℕ)) (s : OvenState)
    (h : s.systemState = STATE_ERROR) (hd : s.ssrDutyCycle = 0) (hs : s.ssrState = false) :
    (runTicks s inputs).systemState = STATE_ERROR ∧
    (runTicks s inputs).ssrDutyCycle = 0 ∧
    (runTicks s inputs).ssrState = false ∧
    (runTicks s inputs).lastError = s.lastError := by
  induction inputs generalizing s with
  | nil => exact ⟨h, hd, hs, rfl⟩
  | cons p rest ih =>
    have hstep : runTicks s (p :: rest) = runTicks (tick s p.1 p.2) rest := rfl
    have ht := tick_preserves_shutdown s p.1 p.2 h hd
    have hrec := ih (tick s p.1 p.2) ht.1 ht.2.1 ht.2.2.1
    rw [hstep]
    exact ⟨hrec.1, hrec.2.1, hrec.2.2.1, by rw [hrec.2.2.2, ht.2.2.2]⟩

set_option maxRecDepth 4096 in
/-- C7: for every duty value d in 0..255, the computed window on-time is at
most the 1000 ms period, a nonzero on-time is at least the 100 ms minimum
after clamping, and duty 0 yields on-time 0 with no forced minimum pulse. -/
theorem ssr_on_time_bounds :
    ∀ d : ℕ, d < 256 →
      ssrOnTime d ≤ 1000 ∧ (0 < ssrOnTime d → PWM_MIN_ON_TIME ≤ ssrOnTime d) ∧
      (d = 0 → ssrOnTime d = 0) := by decide

theorem ssr_on_time_bounds_witness :
    ssrOnTime 3 ≤ 1000 ∧ (0 < ssrOnTime 3 → PWM_MIN_ON_TIME ≤ ssrOnTime 3) ∧
    (3 = 0 → ssrOnTime 3 = 0) :=
  ssr_on_time_bounds 3 (by decide)

/-- A filament-drying run in `STATE_MAINTAINING` with the heater being
driven at duty 128, just before its configured duration elapses. -/
def filamentMaintainState : OvenState :=
  { baseState with
    systemState := STATE_MAINTAINING
    operatingMode := MODE_FILAMENT
    currentTemp := 45
    targetTemp := 45
    pidKp := FILAMENT_KP
    pidKi := FILAMENT_KI
    pidKd := FILAMENT_KD
    ssrDutyCycle := 128
    ssrState := true
    heaterWasOn := true }

/-- A reflow run in `STATE_COOLING` (duty already zeroed by the code on the
cooling transition would be 0; set 128 here to observe the zeroing). -/
def reflowCoolingState : OvenState :=
  { baseState with
    systemState := STATE_COOLING
    operatingMode := MODE_REFLOW
    currentTemp := 90
    ssrDutyCycle := 128 }

/-- C2: entering `STATE_COMPLETE` forces the duty cycle to 0 in reflow mode
and entering `STATE_ERROR` always does, but in filament mode the
`MAINTAINING → COMPLETE` transition leaves the duty cycle untouched (the
zeroing switch of `transitionToState` is guarded by
`operatingMode == MODE_REFLOW`), so the heater keeps running at the stale
duty in the Complete state. -/
theorem filament_complete_keeps_duty :
    (updateStateMachine filamentMaintainState 14400000).systemState = STATE_COMPLETE ∧
    (updateStateMachine filamentMaintainState 14400000).ssrDutyCycle = 128 ∧
    (transitionToState filamentMaintainState STATE_COMPLETE 14400000).ssrDutyCycle = 128 ∧
    (transitionToState reflowCoolingState STATE_COMPLETE 0).ssrDutyCycle = 0 ∧
    (emergencyShutdown filamentMaintainState ERROR_TIMEOUT).ssrDutyCycle = 0 := by decide

/-- C3 counterexample: in `STATE_IDLE` the safety checks are skipped
entirely, so a reading of 300 °C — far above the 260 °C reflow ceiling —
neither faults the state machine nor latches any error on that tick. -/
theorem safety_checks_skipped_in_idle :
    checkOverTemperature { baseState with currentTemp := 300 } = true ∧
    (tick baseState 300 50).systemState = STATE_IDLE ∧
    (tick baseState 300 50).lastError = ERROR_NONE := by decide

/-- C1: if on a tick of a running operation the filtered reading exceeds the
operating mode's maximum temperature, that very tick ends in `STATE_ERROR`
with `ERROR_OVER_TEMP` latched, the duty cycle forced to 0 and the SSR off,
and every later tick (no operator acknowledgment occurs in `tick`) keeps
the error state, the latched over-temperature reason, zero duty and the SSR
off. -/
theorem overtemp_trip_latches_until_ack (s : OvenState) (temp : ℚ) (now : ℕ)
    (hrun : IsRunning s.systemState) (hover : modeMaxTemp s.operatingMode < temp)
    (rest : List (ℚ × ℕ)) :
    (runTicks s ((temp, now) :: rest)).systemState = STATE_ERROR ∧
    (runTicks s ((temp, now) :: rest)).lastError = ERROR_OVER_TEMP ∧
    (runTicks s ((temp, now) :: rest)).ssrDutyCycle = 0 ∧
    (runTicks s ((temp, now) :: rest)).ssrState = false := by
  have hi : s.systemState ≠ STATE_IDLE := by
    rcases hrun with h | h | h | h | h | h <;> simp [h]
  have he : s.systemState ≠ STATE_ERROR := by
    rcases hrun with h | h | h | h | h | h <;> simp [h]
  have hover' : checkOverTemperature { s with currentTemp := temp } = true := by
    simp only [checkOverTemperature, decide_eq_true_eq]
    exact hover
  have heq := tick_overtemp s temp now hi he hover'
  have hpost := post_shutdown_fields { s with currentTemp := temp } ERROR_OVER_TEMP now
  have h1 : (tick s temp now).systemState = STATE_ERROR := by rw [heq]; exact hpost.1
  have h2 : (tick s temp now).lastError = ERROR_OVER_TEMP := by rw [heq]; exact hpost.2.1
  have h3 : (tick s temp now).ssrDutyCycle = 0 := by rw [heq]; exact hpost.2.2.1
  have h4 : (tick s temp now).ssrState = false := by rw [heq]; exact hpost.2.2.2
  have hstep : runTicks s ((temp, now) :: rest) = runTicks (tick s temp now) rest := rfl
  have hfin := runTicks_preserves_shutdown rest (tick s temp now) h1 h3 h4
  rw [hstep]
  exact ⟨hfin.1, by rw [hfin.2.2.2]; exact h2, hfin.2.1, hfin.2.2.1⟩

/-- A filament-mode single-setpoint run in its heating phase, used as the
concrete witness input. -/
def runningHotState : OvenState :=
  { baseState with
    systemState := STATE_HEATING
    operatingMode := MODE_FILAMENT
    currentTemp := 99
    targetTemp := 45
    pidKp := FILAMENT_KP
    pidKi := FILAMENT_KI
    pidKd := FILAMENT_KD }

theorem overtemp_trip_latches_until_ack_witness :
    IsRunning runningHotState.systemState ∧
    modeMaxTemp runningHotState.operatingMode < 101 ∧
    ((runTicks runningHotState [((101 : ℚ), 1000), ((101 : ℚ), 1100)]).systemState
        = STATE_ERROR ∧
     (runTicks runningHotState [((101 : ℚ), 1000), ((101 : ℚ), 1100)]).lastError
        = ERROR_OVER_TEMP ∧
     (runTicks runningHotState [((101 : ℚ), 1000), ((101 : ℚ), 1100)]).ssrDutyCycle = 0 ∧
     (runTicks runningHotState [((101 : ℚ), 1000), ((101 : ℚ), 1100)]).ssrState = false) :=
  ⟨by decide, by decide,
   overtemp_trip_latches_until_ack runningHotState 101 1000 (by decide) (by decide)
     [((101 : ℚ), 1100)]⟩

/-- C3 amended: on every tick in every state other than `STATE_IDLE` and
`STATE_ERROR` (all six running phases and `STATE_COMPLETE`), the three
safety checks are evaluated before the PID/actuation steps, so any trip
condition present on that tick forces the error state, zero duty and the
SSR off on that same tick, regardless of the current phase. -/
theorem safety_trip_all_active_states (s : OvenState) (temp : ℚ) (now : ℕ)
    (hi : s.systemState ≠ STATE_IDLE) (he : s.systemState ≠ STATE_ERROR)
    (htrip : checkOverTemperature { s with currentTemp := temp } = true ∨
             checkThermalRunaway { s with currentTemp := temp } now = true ∨
             checkTimeout { s with currentTemp := temp } now = true) :
    (tick s temp now).systemState = STATE_ERROR ∧
    (tick s temp now).ssrDutyCycle = 0 ∧
    (tick s temp now).ssrState = false := by
  obtain ⟨e, hcs⟩ :=
    checkSafetyConditions_trip { s with currentTemp := temp } now hi he htrip
  have heq : tick s temp now =
      updateStateMachine
        (controlSSR (emergencyShutdown { s with currentTemp := temp } e) now) now := by
    simp only [tick]
    rw [hcs]
    rw [if_neg (by simp [emergencyShutdown])]
  have hpost := post_shutdown_fields { s with currentTemp := temp } e now
  rw [heq]
  exact ⟨hpost.1, hpost.2.2.1, hpost.2.2.2⟩

/-- A completed reflow run still holding a hot oven, used as the concrete
witness input for the amended C3: even in `STATE_COMPLETE` the safety pass
still trips. -/
def completeHotState : OvenState :=
  { baseState with
    systemState := STATE_COMPLETE
    operatingMode := MODE_REFLOW
    currentTemp := 90 }

theorem safety_trip_all_active_states_witness :
    (tick completeHotState 300 50).systemState = STATE_ERROR ∧
    (tick completeHotState 300 50).ssrDutyCycle = 0 ∧
    (tick completeHotState 300 50).ssrState = false :=
  safety_trip_all_active_states completeHotState 300 50 (by decide) (by decide)
    (Or.inl (by decide))

/-- Bounds of the Arduino `constrain`. -/
theorem constrain_mem (x lo hi : ℚ) (h : lo ≤ hi) :
    lo ≤ constrain x lo hi ∧ constrain x lo hi ≤ hi := by
  unfold constrain
  split_ifs with h1 h2
  · exact ⟨le_refl lo, h⟩
  · exact ⟨h, le_refl hi⟩
  · exact ⟨not_lt.mp h1, not_lt.mp h2⟩

/-- A reflow preheat tick far below target (error = 50 °C), with a zero
integral accumulator, used for the C4 counterexample and witness. -/
def pidOverrideState : OvenState :=
  { baseState with
    systemState := STATE_PREHEATING
    operatingMode := MODE_REFLOW
    currentTemp := 50
    targetTemp := 100 }

/-- C4 counterexample: with the temperature more than 10 °C below target the
output is indeed full power (duty 255), but the integral accumulator is
advanced by the error on that same update (0 becomes 50), refuting
"the integral accumulator is not advanced". -/
theorem pid_integral_advances_in_full_power_band :
    pidOverrideState.currentTemp < pidOverrideState.targetTemp - 10 ∧
    (updatePID pidOverrideState).ssrDutyCycle = 255 ∧
    pidOverrideState.pidIntegral = 0 ∧
    (updatePID pidOverrideState).pidIntegral = 50 := by
  have h : pidOverrideState.currentTemp < pidOverrideState.targetTemp - 10 := by
    norm_num [pidOverrideState, baseState]
  refine ⟨h, ?_, rfl, ?_⟩
  · simp only [updatePID]
    rw [if_pos h]
  · simp only [updatePID]
    norm_num [pidOverrideState, baseState, constrain]

/-- C4 amended: whenever the temperature is more than 10 °C below target,
the update outputs full duty (255), and the integral accumulator is still
advanced by the error and then clamped to the symmetric bound [-100, 100]
(anti-windup by clamping, not by skipping). -/
theorem pid_full_power_output_and_clamped_integral (s : OvenState)
    (h : s.currentTemp < s.targetTemp - 10) :
    (updatePID s).ssrDutyCycle = 255 ∧
    (updatePID s).pidIntegral =
      constrain (s.pidIntegral + (s.targetTemp - s.currentTemp)) (-100) 100 ∧
    -100 ≤ (updatePID s).pidIntegral ∧ (updatePID s).pidIntegral ≤ 100 := by
  simp only [updatePID]
  rw [if_pos h]
  refine ⟨rfl, trivial, ?_, ?_⟩
  · exact (constrain_mem _ _ _ (by norm_num)).1
  · exact (constrain_mem _ _ _ (by norm_num)).2

/-- The acceptance condition of `filterTemperature`: either the buffer holds
no strictly positive sample yet, or the new sample is within the outlier
threshold of the mean of the positive samples. -/
def sampleAccepted (tempHistory : List ℚ) (rawTemp : ℚ) : Prop :=
  (tempHistory.filter (fun t => 0 < t)).length = 0 ∨
  |rawTemp - (tempHistory.filter (fun t => 0 < t)).sum /
      ((tempHistory.filter (fun t => 0 < t)).length : ℚ)| ≤ TEMP_OUTLIER_THRESHOLD

/-- C5 counterexample: at start-up the very first sample (100 °C) is indeed
accepted into the empty ring buffer, but the returned reading is the buffer
sum divided by the full slot count, i.e. 10 °C — not the first sample. -/
theorem first_reading_divides_by_sample_count :
    (filterTemperature (List.replicate TEMP_SAMPLE_COUNT (0 : ℚ)) 0 100).1 = 10 ∧
    (filterTemperature (List.replicate TEMP_SAMPLE_COUNT (0 : ℚ)) 0 100).1 ≠ 100 := by
  have hfil : (List.replicate TEMP_SAMPLE_COUNT (0 : ℚ)).filter (fun t => 0 < t) = [] := rfl
  have hset : (List.replicate TEMP_SAMPLE_COUNT (0 : ℚ)).set 0 100
      = 100 :: List.replicate 9 0 := rfl
  simp only [filterTemperature, hfil, hset]
  norm_num [List.sum_cons, List.sum_replicate, TEMP_SAMPLE_COUNT]

/-- C5 amended: every accepted sample is written into the ring buffer and
the update returns the sum of all `TEMP_SAMPLE_COUNT` slots divided by
`TEMP_SAMPLE_COUNT` (empty slots counted as 0); the first sample after
start-up is accepted unconditionally, and the first returned reading is
that sample divided by `TEMP_SAMPLE_COUNT`. -/
theorem filter_accept_returns_buffer_sum_div_count (tempHistory : List ℚ)
    (idx : ℕ) (rawTemp : ℚ) (hacc : sampleAccepted tempHistory rawTemp) :
    filterTemperature tempHistory idx rawTemp =
      ((tempHistory.set idx rawTemp).sum / (TEMP_SAMPLE_COUNT : ℚ),
       tempHistory.set idx rawTemp, (idx + 1) % TEMP_SAMPLE_COUNT) ∧
    ∀ r : ℚ, (filterTemperature (List.replicate TEMP_SAMPLE_COUNT 0) 0 r).1
      = r / (TEMP_SAMPLE_COUNT : ℚ) := by
  constructor
  · unfold filterTemperature
    rw [if_neg]
    rintro ⟨h1, h2⟩
    rcases hacc with hl | hle
    · rw [hl] at h1; exact absurd h1 (by norm_num)
    · exact absurd h2 (not_lt.mpr hle)
  · intro r
    have hfil : (List.replicate TEMP_SAMPLE_COUNT (0 : ℚ)).filter (fun t => 0 < t) = [] := rfl
    have hset : (List.replicate TEMP_SAMPLE_COUNT (0 : ℚ)).set 0 r
        = r :: List.replicate 9 0 := rfl
    simp only [filterTemperature, hfil, hset]
    norm_num [List.sum_cons, List.sum_replicate, TEMP_SAMPLE_COUNT]

theorem filter_accept_returns_buffer_sum_div_count_witness :
    filterTemperature ((50 : ℚ) :: List.replicate 9 0) 1 55 =
      ((((50 : ℚ) :: List.replicate 9 0).set 1 55).sum / (TEMP_SAMPLE_COUNT : ℚ),
       ((50 : ℚ) :: List.replicate 9 0).set 1 55, (1 + 1) % TEMP_SAMPLE_COUNT) ∧
    ∀ r : ℚ, (filterTemperature (List.replicate TEMP_SAMPLE_COUNT 0) 0 r).1
      = r / (TEMP_SAMPLE_COUNT : ℚ) :=
  filter_accept_returns_buffer_sum_div_count ((50 : ℚ) :: List.replicate 9 0) 1 55
    (by
      right
      have hfil : ((50 : ℚ) :: List.replicate 9 0).filter (fun t => 0 < t) = [50] := rfl
      rw [hfil]
      norm_num [TEMP_OUTLIER_THRESHOLD])

/-- The four possible outcomes of `controlSSR`, abstracted over the window
bookkeeping and the freshly computed output level. -/
theorem controlSSR_shape (s : OvenState) (now : ℕ) :
    ∃ cs ns, controlSSR s now =
      (if ns = s.ssrState then { s with ssrCycleStart := cs }
       else if ns then
         { s with ssrCycleStart := cs, ssrState := true, heaterWasOn := true }
       else if s.heaterWasOn then
         { s with ssrCycleStart := cs, ssrState := false,
                  heaterOffTemp := s.currentTemp, heaterOffTime := now }
       else { s with ssrCycleStart := cs, ssrState := false }) :=
  ⟨_, _, rfl⟩

theorem controlSSR_capture (s : OvenState) (now : ℕ) (hon : s.ssrState = true)
    (hw : s.heaterWasOn = true) (hoff : (controlSSR s now).ssrState = false) :
    (controlSSR s now).heaterOffTemp = s.currentTemp ∧
    (controlSSR s now).heaterOffTime = now := by
  obtain ⟨cs, ns, hshape⟩ := controlSSR_shape s now
  rw [hshape] at hoff ⊢
  split_ifs at hoff ⊢ <;> simp_all

theorem controlSSR_no_edge (s : OvenState) (now : ℕ)
    (h : (controlSSR s now).ssrState = s.ssrState) :
    (controlSSR s now).heaterOffTemp = s.heaterOffTemp ∧
    (controlSSR s now).heaterOffTime = s.heaterOffTime := by
  obtain ⟨cs, ns, hshape⟩ := controlSSR_shape s now
  rw [hshape] at h ⊢
  split_ifs at h ⊢ <;> simp_all

theorem checkThermalRunaway_iff (s : OvenState) (now : ℕ) :
    checkThermalRunaway s now = true ↔
      s.heaterWasOn = true ∧ s.ssrState = false ∧
      THERMAL_RUNAWAY_TIME < now - s.heaterOffTime ∧
      THERMAL_RUNAWAY_TEMP_RISE < s.currentTemp - s.heaterOffTemp := by
  unfold checkThermalRunaway
  cases hw : s.heaterWasOn <;> cases hs : s.ssrState <;> simp [hw, hs]

/-- C6: the thermal-runaway check trips exactly when the heater has been on
at least once, is currently off, more than the 30 s window has elapsed since
the last heater-off edge, and the filtered temperature has risen more than
5 °C above the temperature recorded at that edge; it never trips within the
window, and `controlSSR` records the baseline pair exactly at on-to-off
edges and leaves it untouched whenever the output level does not change. -/
theorem thermal_runaway_window_and_baseline (s : OvenState) (now : ℕ) :
    (checkThermalRunaway s now = true ↔
      s.heaterWasOn = true ∧ s.ssrState = false ∧
      THERMAL_RUNAWAY_TIME < now - s.heaterOffTime ∧
      THERMAL_RUNAWAY_TEMP_RISE < s.currentTemp - s.heaterOffTemp) ∧
    (now - s.heaterOffTime ≤ THERMAL_RUNAWAY_TIME → checkThermalRunaway s now = false) ∧
    (s.ssrState = true → s.heaterWasOn = true → (controlSSR s now).ssrState = false →
      (controlSSR s now).heaterOffTemp = s.currentTemp ∧
      (controlSSR s now).heaterOffTime = now) ∧
    ((controlSSR s now).ssrState = s.ssrState →
      (controlSSR s now).heaterOffTemp = s.heaterOffTemp ∧
      (controlSSR s now).heaterOffTime = s.heaterOffTime) := by
  refine ⟨checkThermalRunaway_iff s now, ?_, controlSSR_capture s now,
          controlSSR_no_edge s now⟩
  intro hle
  cases hx : checkThermalRunaway s now
  · rfl
  · have := ((checkThermalRunaway_iff s now).mp hx).2.2.1
    exact absurd this (not_lt.mpr hle)

/-- Heater off since t = 0 ms at 100 °C, filtered reading 106 °C at
t = 31000 ms: a thermal-runaway trip condition. -/
def runawayState : OvenState :=
  { baseState with
    systemState := STATE_MAINTAINING
    operatingMode := MODE_FILAMENT
    currentTemp := 106
    targetTemp := 45
    heaterOffTemp := 100
    heaterOffTime := 0
    heaterWasOn := true
    ssrState := false }

/-- Heater currently on with the duty just commanded to 0: the next
`controlSSR` call produces an on-to-off edge. -/
def offEdgeState : OvenState :=
  { baseState with
    systemState := STATE_HEATING
    operatingMode := MODE_FILAMENT
    currentTemp := 80
    ssrState := true
    heaterWasOn := true
    ssrDutyCycle := 0
    ssrCycleStart := 0 }

theorem thermal_runaway_window_and_baseline_witness :
    checkThermalRunaway runawayState 31000 = true ∧
    checkThermalRunaway runawayState 20000 = false ∧
    (controlSSR offEdgeState 500).heaterOffTemp = (80 : ℚ) ∧
    (controlSSR offEdgeState 500).heaterOffTime = 500 :=
  ⟨(thermal_runaway_window_and_baseline runawayState 31000).1.mpr
      (by refine ⟨rfl, rfl, by norm_num [runawayState, baseState, THERMAL_RUNAWAY_TIME], ?_⟩
          norm_num [runawayState, baseState, THERMAL_RUNAWAY_TEMP_RISE]),
   (thermal_runaway_window_and_baseline runawayState 20000).2.1
      (by norm_num [runawayState, baseState, THERMAL_RUNAWAY_TIME]),
   ((thermal_runaway_window_and_baseline offEdgeState 500).2.2.1 rfl rfl
      (by decide)).1,
   ((thermal_runaway_window_and_baseline offEdgeState 500).2.2.1 rfl rfl
      (by decide)).2⟩

/-- A tripped (error-state) filament run with a latched over-temperature
fault and target 60 °C. -/
def trippedFilamentState : OvenState :=
  { baseState with
    systemState := STATE_ERROR
    operatingMode := MODE_FILAMENT
    lastError := ERROR_OVER_TEMP
    currentTemp := 105
    targetTemp := 60
    filamentTemp := 60 }

/-- C8 counterexample: the `set_temp` command branch performs no system
state check, so an in-bounds request (50 °C in filament mode) is accepted
and changes the target even while the system is tripped in `STATE_ERROR`. -/
theorem set_temp_accepted_while_tripped :
    trippedFilamentState.systemState = STATE_ERROR ∧
    trippedFilamentState.targetTemp = 60 ∧
    (mqttCommandSetTemp trippedFilamentState 50).targetTemp = 50 := by decide

/-- C8 amended: the remote set-target command is accepted — the target
updated to the requested value — exactly when the request lies within the
operating mode's bounds (0..260 °C in reflow mode, 40..100 °C in filament
mode), regardless of the system state (in particular even while tripped);
any out-of-range value leaves the whole state unchanged — it is rejected,
not clamped. -/
theorem set_temp_bounds_no_clamp (s : OvenState) (newTemp : ℚ) :
    ((if s.operatingMode = MODE_FILAMENT then FILAMENT_TEMP_MIN else 0) ≤ newTemp ∧
      newTemp ≤ modeMaxTemp s.operatingMode →
        (mqttCommandSetTemp s newTemp).targetTemp = newTemp) ∧
    (¬((if s.operatingMode = MODE_FILAMENT then FILAMENT_TEMP_MIN else 0) ≤ newTemp ∧
        newTemp ≤ modeMaxTemp s.operatingMode) →
        mqttCommandSetTemp s newTemp = s) := by
  unfold mqttCommandSetTemp modeMaxTemp
  constructor
  · intro h
    rw [if_pos h]
    split_ifs <;> rfl
  · intro h
    rw [if_neg h]

theorem set_temp_bounds_no_clamp_witness :
    (mqttCommandSetTemp trippedFilamentState 50).targetTemp = 50 ∧
    mqttCommandSetTemp trippedFilamentState 500 = trippedFilamentState :=
  ⟨(set_temp_bounds_no_clamp trippedFilamentState 50).1 (by decide),
   (set_temp_bounds_no_clamp trippedFilamentState 500).2 (by decide)⟩

theorem transitionToState_heaterWasOn (s : OvenState) (ns : SystemState) (now : ℕ) :
    (transitionToState s ns now).heaterWasOn = s.heaterWasOn := by
  simp only [transitionToState]
  split_ifs
  · cases ns <;> rfl
  · rfl

theorem setPIDParams_heaterWasOn (s : OvenState) (mode : OperatingMode) :
    (setPIDParams s mode).heaterWasOn = s.heaterWasOn := by
  simp only [setPIDParams]
  split_ifs <;> rfl

/-- C9: a raw ADC code below the short-circuit threshold causes no trip
while the heater has never been on this run, and an immediate trip once it
has; `startOperation` from idle resets the heater-has-been-on flag. -/
theorem sensor_short_requires_heater_history (adcValue : ℤ) (s : OvenState) (now : ℕ)
    (hshort : adcValue < SENSOR_SHORT_THRESHOLD)
    (hidle : s.systemState = STATE_IDLE) :
    checkSensorFailure adcValue false = false ∧
    checkSensorFailure adcValue true = true ∧
    (startOperation s now).heaterWasOn = false := by
  have hopen : ¬(SENSOR_OPEN_THRESHOLD < adcValue) := by
    unfold SENSOR_OPEN_THRESHOLD
    unfold SENSOR_SHORT_THRESHOLD at hshort
    omega
  refine ⟨?_, ?_, ?_⟩
  · simp [checkSensorFailure, hopen]
  · simp [checkSensorFailure, hopen, hshort]
  · simp only [startOperation]
    rw [if_neg (by simp [hidle])]
    split_ifs
    · rw [transitionToState_heaterWasOn]
      show (setPIDParams _ _).heaterWasOn = false
      rw [setPIDParams_heaterWasOn]
    · rw [transitionToState_heaterWasOn]
      show (setPIDParams _ _).heaterWasOn = false
      rw [setPIDParams_heaterWasOn]
    · rw [setPIDParams_heaterWasOn]

theorem sensor_short_requires_heater_history_witness :
    checkSensorFailure 5 false = false ∧
    checkSensorFailure 5 true = true ∧
    (startOperation baseState 0).heaterWasOn = false :=
  sensor_short_requires_heater_history 5 baseState 0 (by decide) rfl

/-- C10: when the buffer holds at least one positive sample and the new
converted sample differs from the mean of those samples by more than the
outlier threshold, the sample is discarded: the ring buffer and write index
come back unchanged and the update returns that existing mean. -/
theorem filter_outlier_rejected_state_unchanged (tempHistory : List ℚ) (idx : ℕ)
    (rawTemp : ℚ)
    (hvalid : 0 < (tempHistory.filter (fun t => 0 < t)).length)
    (hout : TEMP_OUTLIER_THRESHOLD <
      |rawTemp - (tempHistory.filter (fun t => 0 < t)).sum /
        ((tempHistory.filter (fun t => 0 < t)).length : ℚ)|) :
    filterTemperature tempHistory idx rawTemp =
      ((tempHistory.filter (fun t => 0 < t)).sum /
        ((tempHistory.filter (fun t => 0 < t)).length : ℚ),
       tempHistory, idx) := by
  unfold filterTemperature
  rw [if_pos ⟨hvalid, hout⟩]

theorem filter_outlier_rejected_state_unchanged_witness :
    filterTemperature ((50 : ℚ) :: List.replicate 9 0) 1 200 =
      (50, (50 : ℚ) :: List.replicate 9 0, 1) := by
  have hfil : ((50 : ℚ) :: List.replicate 9 0).filter (fun t => 0 < t) = [50] := rfl
  have h := filter_outlier_rejected_state_unchanged ((50 : ℚ) :: List.replicate 9 0) 1 200
    (by rw [hfil]; norm_num)
    (by rw [hfil]; norm_num [TEMP_OUTLIER_THRESHOLD])
  rw [h, hfil]
  norm_num

theorem pid_full_power_output_and_clamped_integral_witness :
    (updatePID pidOverrideState).ssrDutyCycle = 255 ∧
    (updatePID pidOverrideState).pidIntegral =
      constrain (pidOverrideState.pidIntegral +
        (pidOverrideState.targetTemp - pidOverrideState.currentTemp)) (-100) 100 ∧
    -100 ≤ (updatePID pidOverrideState).pidIntegral ∧
    (updatePID pidOverrideState).pidIntegral ≤ 100 :=
  pid_full_power_output_and_clamped_integral pidOverrideState
    (by norm_num [pidOverrideState, baseState])

end ReflowOven
